import Mathlib

/-!
Shallow embedding of `src/components/ClientDialog.tsx` from the
bam-crm-frontend repository: a modal form that creates or edits a client
record, with mandatory-field validation in create mode, a temporary
identifier for document association, a dynamic-columns fetch on open, and
additive merges from two child dialogs.

Modelling conventions:
* JavaScript objects used as string-keyed records (`Partial<Client>`,
  `user_defined_fields`, `client_documents`) are association lists
  `List (String × α)` with JS object-spread semantics: updating an existing
  key replaces it in place, a new key is appended.
* The two React `useEffect` hooks are modelled by `applyRender`, which keeps
  the previously seen dependency tuples in the component state and re-runs
  an effect exactly when its dependency tuple changed, as React does.
* Nondeterminism (`Date.now()`, `Math.random()`), and the outcome of the
  asynchronous `columnService.getColumnMetadata()` call, enter as explicit
  parameters (`Nat × String` entropy, `Except String (List ColumnMetadata)`).
* The repository's `src/types/client.ts` is not present; the shape of a
  client record is modelled from the spec and from this component's own
  usage: a flat string/boolean field map, an optional numeric identifier,
  and the two optional sub-maps.
-/

/-- A value held in one scalar form field: text inputs store strings,
checkbox-type inputs store booleans (`event.target.checked`). -/
inductive FieldValue where
  | str : String → FieldValue
  | bool : Bool → FieldValue
deriving DecidableEq, Repr

/-- First-match lookup in an association list, the JS property read. -/
def lookupK {α : Type} : List (String × α) → String → Option α
  | [], _ => none
  | (k', v) :: rest, k => if k' = k then some v else lookupK rest k

/-- JS object-spread update `{...m, [k]: v}`: replaces the first binding of
`k` in place, or appends a new binding at the end. -/
def setK {α : Type} : List (String × α) → String → α → List (String × α)
  | [], k, v => [(k, v)]
  | (k', v') :: rest, k, v =>
      if k' = k then (k, v) :: rest else (k', v') :: setK rest k v

/-- JS object-spread merge `{...a, ...b}`: the entries of `b` are written
into `a` one by one, later sources winning. -/
def spreadMerge {α : Type} (a b : List (String × α)) : List (String × α) :=
  b.foldl (fun m kv => setK m kv.1 kv.2) a

/-- JS `delete m[k]` on a copied object: drops the binding of `k`. -/
def eraseK {α : Type} (m : List (String × α)) (k : String) : List (String × α) :=
  m.filter (fun kv => kv.1 != k)

/-- The component's `Partial<Client>` form record (and, with `id` present,
a full client record passed in as the `client` prop): scalar fields plus the
two open-ended sub-maps, each absent (`none`) until first written, as in the
source where `user_defined_fields` and `client_documents` may be undefined.
Modelled from the spec for the missing `src/types/client.ts`: values of
`user_defined_fields` are the displayed name→value strings, values of
`client_documents` are name→URL strings, `id` is numeric. -/
structure FormData where
  id : Option Nat
  fields : List (String × FieldValue)
  user_defined_fields : Option (List (String × String))
  client_documents : Option (List (String × String))
deriving DecidableEq, Repr

/-- One dynamic column definition as this component consumes it
(`column.id` for the React key, `column.column_name` for the value slot). -/
structure ColumnMetadata where
  id : Nat
  column_name : String
deriving DecidableEq, Repr

/-- The `mode` prop: `"create" | "edit"`. -/
inductive Mode where
  | create
  | edit
deriving DecidableEq, Repr

/-- The props of `ClientDialog` that drive its state (`onClose`/`onSave` are
caller callbacks; the save calls are returned explicitly by `handleSubmit`).
`openFlag` renders the source's `open` prop, which is a Lean keyword. -/
structure Props where
  openFlag : Bool
  client : Option FormData
  mode : Mode
deriving DecidableEq, Repr

/-- The `useState` cells of the component, plus the dependency memory that
React keeps for the two `useEffect` hooks: `prevInitDeps` for the effect
with dependency list `[client, mode]`, `prevOpenDep` for the effect with
dependency list `[open]`. -/
structure CompState where
  formData : FormData
  customFieldsOpen : Bool
  documentsOpen : Bool
  tempClientId : String
  dynamicColumns : List ColumnMetadata
  validationError : String
  showValidationError : Bool
  prevInitDeps : Option (Option FormData × Mode)
  prevOpenDep : Option Bool
deriving DecidableEq, Repr

/-- The empty object `{}` that `useState<Partial<Client>>({})` starts from. -/
def emptyForm : FormData :=
  { id := none, fields := [], user_defined_fields := none,
    client_documents := none }

/-- State at mount, before any effect has run. -/
def initialState : CompState :=
  { formData := emptyForm, customFieldsOpen := false, documentsOpen := false,
    tempClientId := "", dynamicColumns := [], validationError := "",
    showValidationError := false, prevInitDeps := none, prevOpenDep := none }

/-- The fresh record built in the create branch of the initialization
effect: only `case_status` is populated, with value `"Active"`. -/
def freshForm : FormData :=
  { id := none, fields := [("case_status", FieldValue.str "Active")],
    user_defined_fields := none, client_documents := none }

/-- `` `temp_${Date.now()}_${Math.random().toString(36).substr(2, 9)}` ``:
the timestamp and the random suffix are the two entropy inputs. -/
def genTempId (now : Nat) (rand : String) : String :=
  "temp_" ++ toString now ++ "_" ++ rand

/-- The initialization effect body (dependency list `[client, mode]`):
edit mode with a client copies the client into the form; every other case
generates a temporary identifier and resets the form to `freshForm`. -/
def initFormEffect (client : Option FormData) (mode : Mode)
    (entropy : Nat × String) (s : CompState) : CompState :=
  match client, mode with
  | some c, Mode.edit => { s with formData := c }
  | _, _ =>
      { s with tempClientId := genTempId entropy.1 entropy.2,
               formData := freshForm }

/-- `fetchDynamicColumns`: on success stores the returned columns; on
failure only logs (`console.error`) and changes no state. -/
def applyFetchResult (f : Except String (List ColumnMetadata))
    (s : CompState) : CompState :=
  match f with
  | Except.ok cols => { s with dynamicColumns := cols }
  | Except.error _ => s

/-- One committed render with props `p`: React runs each effect exactly when
its dependency tuple differs from the previously seen one (or on mount).
Returns the new state and whether `fetchDynamicColumns` was invoked.
The fetch outcome is applied synchronously; the source fires it without
cancellation and applies the resolution whenever it arrives. -/
def applyRender (p : Props) (entropy : Nat × String)
    (f : Except String (List ColumnMetadata)) (s : CompState) :
    CompState × Bool :=
  let s1 :=
    if s.prevInitDeps = some (p.client, p.mode) then s
    else { initFormEffect p.client p.mode entropy s with
             prevInitDeps := some (p.client, p.mode) }
  if s1.prevOpenDep = some p.openFlag then (s1, false)
  else
    let s2 := if p.openFlag then applyFetchResult f s1 else s1
    ({ s2 with prevOpenDep := some p.openFlag }, p.openFlag)

/-- A change event target as `handleChange` reads it: `event.target.type`,
`event.target.checked`, `event.target.value` (`ttype` renders `type`,
a Lean keyword). -/
structure InputEvent where
  ttype : String
  checked : Bool
  value : String
deriving DecidableEq, Repr

/-- `handleChange(field)(event)`: writes the checkbox truth value or the
text value under the one named key via object spread. -/
def handleChange (field : String) (ev : InputEvent) (s : CompState) :
    CompState :=
  let v := if ev.ttype = "checkbox" then FieldValue.bool ev.checked
           else FieldValue.str ev.value
  { s with formData := { s.formData with
      fields := setK s.formData.fields field v } }

/-- `handleDynamicFieldChange(columnName, value)`: same single-key spread
update, keyed by the dynamic column's name. -/
def handleDynamicFieldChange (columnName : String) (v : FieldValue)
    (s : CompState) : CompState :=
  { s with formData := { s.formData with
      fields := setK s.formData.fields columnName v } }

/-- `handleCustomFieldsSave(fields)`: additive spread merge of the returned
map into the existing `user_defined_fields` (or `{}` when absent). -/
def handleCustomFieldsSave (fields : List (String × String))
    (s : CompState) : CompState :=
  { s with formData := { s.formData with
      user_defined_fields :=
        some (spreadMerge (s.formData.user_defined_fields.getD []) fields) } }

/-- `handleDocumentsSave(documents)`: additive spread merge into the
existing `client_documents` (or `{}` when absent). -/
def handleDocumentsSave (documents : List (String × String))
    (s : CompState) : CompState :=
  { s with formData := { s.formData with
      client_documents :=
        some (spreadMerge (s.formData.client_documents.getD []) documents) } }

/-- `handleDeleteCustomField(fieldName)`: copies the sub-map and deletes the
one key. -/
def handleDeleteCustomField (fieldName : String) (s : CompState) :
    CompState :=
  { s with formData := { s.formData with
      user_defined_fields :=
        some (eraseK (s.formData.user_defined_fields.getD []) fieldName) } }

/-- `handleDeleteDocument(docName)`: copies the sub-map and deletes the one
key. -/
def handleDeleteDocument (docName : String) (s : CompState) : CompState :=
  { s with formData := { s.formData with
      client_documents :=
        some (eraseK (s.formData.client_documents.getD []) docName) } }

/-- Whitespace as JS `String.prototype.trim` strips it, restricted to the
characters that occur in this form's inputs (space, tab, newline, carriage
return). -/
def isWS (c : Char) : Bool :=
  c = ' ' || c = '\t' || c = '\n' || c = '\r'

/-- JS `value.trim()`: drop leading and trailing whitespace. Structural on
the character list so that concrete runs evaluate in the kernel. -/
def jsTrim (s : String) : String :=
  String.mk (((s.data.dropWhile isWS).reverse.dropWhile isWS).reverse)

/-- `!formData.key?.trim()`: true when the field is absent or its trimmed
string is empty. A boolean in one of these slots would raise a TypeError in
the source; the TS `Client` type makes that unreachable, and the validation
theorems carry `wfMandatory` to stay inside that reachable region. -/
def isBlank (fd : FormData) (k : String) : Bool :=
  match lookupK fd.fields k with
  | some (FieldValue.str v) => jsTrim v == ""
  | some (FieldValue.bool _) => false
  | none => true

/-- The four mandatory keys in the order the source checks them. -/
def mandatoryKeys : List String :=
  ["first_name", "last_name", "primary_email", "primary_phone"]

/-- Key/label pairs in the fixed source order. -/
def mandatoryLabels : List (String × String) :=
  [("first_name", "First Name"), ("last_name", "Last Name"),
   ("primary_email", "Primary Email"), ("primary_phone", "Primary Phone")]

/-- The mandatory slots hold strings or are absent, as the TS `Client` type
guarantees (a boolean there would make the source throw before saving). -/
def wfMandatory (fd : FormData) : Bool :=
  mandatoryKeys.all fun k =>
    match lookupK fd.fields k with
    | some (FieldValue.bool _) => false
    | _ => true

/-- The `missingFields` array built by `validateMandatoryFields`: one label
pushed per blank mandatory field, in the fixed source order. -/
def missingFields (fd : FormData) : List String :=
  (if isBlank fd "first_name" then ["First Name"] else []) ++
  (if isBlank fd "last_name" then ["Last Name"] else []) ++
  (if isBlank fd "primary_email" then ["Primary Email"] else []) ++
  (if isBlank fd "primary_phone" then ["Primary Phone"] else [])

/-- `validateMandatoryFields`: when some field is missing, stores the joined
error message, shows the snackbar, and returns false; otherwise returns true
with no state change. -/
def validateMandatoryFields (s : CompState) : CompState × Bool :=
  let missing := missingFields s.formData
  if missing.length > 0 then
    ({ s with
        validationError :=
          "Please fill the following mandatory fields: " ++
            String.intercalate ", " missing,
        showValidationError := true }, false)
  else (s, true)

/-- `handleSubmit`: validates only in create mode; returns the new state and
the list of `onSave` invocations this submit performed (payload per call). -/
def handleSubmit (mode : Mode) (s : CompState) :
    CompState × List FormData :=
  match mode with
  | Mode.create =>
      let r := validateMandatoryFields s
      if r.2 then (r.1, [r.1.formData]) else (r.1, [])
  | Mode.edit => (s, [s.formData])

/-- `getClientIdForDocuments`: `mode === "edit" && client?.id` is a JS
truthiness test, so a missing client, a missing `id`, or the number `0`
all fall through to the temporary identifier. -/
def getClientIdForDocuments (mode : Mode) (client : Option FormData)
    (s : CompState) : String :=
  match mode, client with
  | Mode.edit, some c =>
      match c.id with
      | some n => if n ≠ 0 then toString n else s.tempClientId
      | none => s.tempClientId
  | _, _ => s.tempClientId

/-! ### Concrete fixtures for witnesses and counterexamples -/

/-- Concrete run for C1: first name whitespace-only, last name filled,
email and phone absent. -/
def c1State : CompState :=
  { initialState with formData :=
      { id := none,
        fields := [("first_name", FieldValue.str "   "),
                   ("last_name", FieldValue.str "Doe")],
        user_defined_fields := none, client_documents := none } }

/-- Concrete run for C2: all mandatory fields filled, plus arbitrary other
fields, sub-maps and flags. -/
def c2State : CompState :=
  { initialState with
      formData :=
        { id := none,
          fields := [("first_name", FieldValue.str "Jane"),
                     ("last_name", FieldValue.str "Doe"),
                     ("primary_email", FieldValue.str "jane@example.com"),
                     ("primary_phone", FieldValue.str "555-0100"),
                     ("case_status", FieldValue.str "Active"),
                     ("is_active", FieldValue.bool true),
                     ("middle_name", FieldValue.str "Q")],
          user_defined_fields := some [("referral", "web")],
          client_documents := some [("scan.pdf", "https://x/scan.pdf")] },
      tempClientId := "temp_7_abcdefghi" }

/-- Create-mode props with the dialog open. -/
def openCreateProps : Props :=
  { openFlag := true, client := none, mode := Mode.create }

/-- The same props with the dialog closed. -/
def closedCreateProps : Props :=
  { openFlag := false, client := none, mode := Mode.create }

/-- First create-mode open: mount render. -/
def c5S1 : CompState :=
  (applyRender openCreateProps (1, "aaaaaaaaa") (Except.ok []) initialState).1

/-- The dialog is closed (only the `open` prop changes). -/
def c5S2 : CompState :=
  (applyRender closedCreateProps (2, "bbbbbbbbb") (Except.ok []) c5S1).1

/-- Second create-mode open with the same props, fresh entropy. -/
def c5S3 : CompState :=
  (applyRender openCreateProps (3, "ccccccccc") (Except.ok []) c5S2).1

/-- A client record whose real identifier is the number 0. -/
def zeroIdClient : FormData :=
  { id := some 0, fields := [("first_name", FieldValue.str "Ann")],
    user_defined_fields := none, client_documents := none }

/-- A state holding a generated temporary identifier. -/
def c6State : CompState :=
  { initialState with tempClientId := "temp_9_zzzzzzzzz" }

/-- A client record with the nonzero identifier 42. -/
def fortyTwoClient : FormData :=
  { id := some 42, fields := [], user_defined_fields := none,
    client_documents := none }

/-- A client record with no identifier. -/
def noIdClient : FormData :=
  { id := none, fields := [], user_defined_fields := none,
    client_documents := none }

/-- Left-biased choice, the union operator on pointwise-disjoint maps. -/
def firstSome {α : Type} (x y : Option α) : Option α :=
  match x with
  | some v => some v
  | none => y

/-- The `user_defined_fields` sub-map as the component reads it
(`prev.user_defined_fields || {}`). -/
def ufOf (s : CompState) : List (String × String) :=
  s.formData.user_defined_fields.getD []

/-- The `client_documents` sub-map as the component reads it. -/
def docsOf (s : CompState) : List (String × String) :=
  s.formData.client_documents.getD []

/-- Concrete state for the C7 witness: one pre-existing custom field and one
pre-existing document. -/
def c7State : CompState :=
  { initialState with formData :=
      { id := none, fields := [],
        user_defined_fields := some [("a", "1")],
        client_documents := some [("a", "1")] } }

/-- A concrete dynamic column definition. -/
def industryCol : ColumnMetadata := { id := 1, column_name := "industry" }

/-- First open: the fetch succeeds and stores one column. -/
def c9S1 : CompState :=
  (applyRender openCreateProps (4, "ddddddddd")
    (Except.ok [industryCol]) initialState).1

/-- The dialog is closed. -/
def c9S2 : CompState :=
  (applyRender closedCreateProps (5, "eeeeeeeee")
    (Except.ok [industryCol]) c9S1).1

/-- Second open: the fetch fails. -/
def c9S3 : CompState :=
  (applyRender openCreateProps (6, "fffffffff")
    (Except.error "network down") c9S2).1

/-! ### Association-list lemmas -/

theorem lookupK_setK_self {α : Type} (m : List (String × α)) (k : String)
    (v : α) : lookupK (setK m k v) k = some v := by
  induction m with
  | nil => simp [setK, lookupK]
  | cons kv rest ih =>
      obtain ⟨k', v'⟩ := kv
      by_cases h : k' = k
      · simp [setK, h, lookupK]
      · simp [setK, h, lookupK, ih]

theorem lookupK_setK_ne {α : Type} (m : List (String × α)) (k k' : String)
    (v : α) (h : k' ≠ k) : lookupK (setK m k v) k' = lookupK m k' := by
  have hne : ¬(k = k') := fun h' => h h'.symm
  induction m with
  | nil => simp [setK, lookupK, hne]
  | cons kv rest ih =>
      obtain ⟨k1, v1⟩ := kv
      by_cases hk : k1 = k
      · subst hk
        simp [setK, lookupK, hne]
      · simp [setK, hk, lookupK, ih]

theorem lookupK_eq_none_of_not_mem {α : Type} (m : List (String × α))
    (k : String) (h : k ∉ m.map Prod.fst) : lookupK m k = none := by
  induction m with
  | nil => rfl
  | cons kv rest ih =>
      obtain ⟨k1, v1⟩ := kv
      simp only [List.map_cons, List.mem_cons] at h
      push_neg at h
      have hne : ¬(k1 = k) := fun h' => h.1 h'.symm
      simp [lookupK, hne, ih h.2]

theorem lookupK_spreadMerge {α : Type} (a b : List (String × α))
    (hb : (b.map Prod.fst).Nodup) (k : String) :
    lookupK (spreadMerge a b) k =
      match lookupK b k with
      | some v => some v
      | none => lookupK a k := by
  induction b generalizing a with
  | nil => cases h : lookupK a k <;> simp [spreadMerge, lookupK, h]
  | cons kv rest ih =>
      obtain ⟨k1, v1⟩ := kv
      simp only [List.map_cons, List.nodup_cons] at hb
      have hstep : spreadMerge a ((k1, v1) :: rest) =
          spreadMerge (setK a k1 v1) rest := rfl
      rw [hstep, ih (setK a k1 v1) hb.2]
      by_cases h : k1 = k
      · subst h
        rw [lookupK_eq_none_of_not_mem rest k1 hb.1]
        simp [lookupK, lookupK_setK_self]
      · simp [lookupK, h, lookupK_setK_ne a k1 k v1 (fun h' => h h'.symm)]

/-- The list built by the four in-order pushes equals the in-order filter of
the fixed label table by blankness: the message names exactly the blank
fields, in the fixed order. -/
theorem missingFields_eq_filter (fd : FormData) :
    missingFields fd =
      (mandatoryLabels.filter fun kv => isBlank fd kv.1).map Prod.snd := by
  by_cases h1 : isBlank fd "first_name" <;>
    by_cases h2 : isBlank fd "last_name" <;>
      by_cases h3 : isBlank fd "primary_email" <;>
        by_cases h4 : isBlank fd "primary_phone" <;>
          simp [missingFields, mandatoryLabels, h1, h2, h3, h4]

/-! ### Claim theorems -/

/-- C1: a create-mode submit with some mandatory field blank (absent or
whitespace-only after trimming) performs no save call, sets the single error
message naming exactly the blank fields' labels in the fixed order
First Name, Last Name, Primary Email, Primary Phone, and shows the error. -/
theorem create_submit_missing_blocks_save (s : CompState)
    (hwf : wfMandatory s.formData = true)
    (hmiss : missingFields s.formData ≠ []) :
    (handleSubmit Mode.create s).2 = [] ∧
    (handleSubmit Mode.create s).1.validationError =
      "Please fill the following mandatory fields: " ++
        String.intercalate ", "
          ((mandatoryLabels.filter fun kv => isBlank s.formData kv.1).map
            Prod.snd) ∧
    (handleSubmit Mode.create s).1.showValidationError = true := by
  have hlen : (missingFields s.formData).length > 0 :=
    List.length_pos.mpr hmiss
  simp only [handleSubmit, validateMandatoryFields]
  rw [if_pos hlen]
  simp [missingFields_eq_filter]

theorem create_submit_missing_blocks_save_witness :
    wfMandatory c1State.formData = true ∧
    missingFields c1State.formData ≠ [] ∧
    ((handleSubmit Mode.create c1State).2 = [] ∧
     (handleSubmit Mode.create c1State).1.validationError =
       "Please fill the following mandatory fields: " ++
         String.intercalate ", "
           ((mandatoryLabels.filter fun kv => isBlank c1State.formData kv.1).map
             Prod.snd) ∧
     (handleSubmit Mode.create c1State).1.showValidationError = true) :=
  ⟨by decide, by decide,
   create_submit_missing_blocks_save c1State (by decide) (by decide)⟩

/-- C2: a create-mode submit with all four mandatory fields non-blank after
trimming calls the save callback exactly once, with the currently held
record, and changes no component state. -/
theorem create_submit_valid_saves_once (s : CompState)
    (hwf : wfMandatory s.formData = true)
    (hok : missingFields s.formData = []) :
    handleSubmit Mode.create s = (s, [s.formData]) := by
  simp [handleSubmit, validateMandatoryFields, hok]

theorem create_submit_valid_saves_once_witness :
    wfMandatory c2State.formData = true ∧
    missingFields c2State.formData = [] ∧
    handleSubmit Mode.create c2State = (c2State, [c2State.formData]) :=
  ⟨by decide, by decide,
   create_submit_valid_saves_once c2State (by decide) (by decide)⟩

/-- C3: an edit-mode submit never validates: the save callback is invoked
once with the currently held record, whatever the mandatory fields hold,
and no state changes. -/
theorem edit_submit_bypasses_validation (s : CompState) :
    handleSubmit Mode.edit s = (s, [s.formData]) := rfl

/-- C4: the initialization effect copies the provided client record in edit
mode; in create mode it produces the fresh record whose only populated field
is `case_status = "Active"` and generates a new temporary identifier from
the entropy draw. -/
theorem init_effect_initialization (s : CompState) (e : Nat × String) :
    (∀ c, initFormEffect (some c) Mode.edit e s = { s with formData := c }) ∧
    (∀ cl, initFormEffect cl Mode.create e s =
      { s with formData := freshForm,
               tempClientId := genTempId e.1 e.2 }) := by
  refine ⟨fun c => rfl, fun cl => ?_⟩
  cases cl <;> rfl

/-- C10: with mode `edit` but no client supplied, the guard
`client && mode === "edit"` fails and the create branch runs: fresh record
with only `case_status = "Active"`, new temporary identifier. -/
theorem edit_without_client_creates_fresh (s : CompState) (e : Nat × String) :
    initFormEffect none Mode.edit e s =
      { s with formData := freshForm,
               tempClientId := genTempId e.1 e.2 } := rfl

/-! ### C5: temporary identifier across re-opens -/

/-- C5 counterexample: the initialization effect depends on `[client, mode]`,
not on `open`, so closing and re-opening with the same props does not re-run
it: the second open's temporary identifier equals the first one, refuting
the claim that it differs. -/
theorem tempid_second_open_equal_cex :
    c5S3.tempClientId = c5S1.tempClientId ∧
    c5S1.tempClientId = "temp_1_aaaaaaaaa" := by
  constructor <;> rfl

/-- C5 amended: the temporary identifier is regenerated only when the
`client`/`mode` dependency pair changes (or on mount); any render with an
unchanged dependency pair — in particular a close/re-open that only toggles
`open` — and every user event keep it constant, so consecutive create-mode
opens with the same props share one identifier. Distinct regenerations with
the same timestamp but distinct random draws do yield distinct
identifiers. -/
theorem tempid_stability_amended (p : Props) (e : Nat × String)
    (f : Except String (List ColumnMetadata)) (s : CompState)
    (fld cn : String) (ev : InputEvent) (v : FieldValue) (m : Mode)
    (cf dm : List (String × String)) (n : Nat) (r r' : String)
    (hdeps : s.prevInitDeps = some (p.client, p.mode)) (hr : r ≠ r') :
    (applyRender p e f s).1.tempClientId = s.tempClientId ∧
    (handleChange fld ev s).tempClientId = s.tempClientId ∧
    (handleDynamicFieldChange cn v s).tempClientId = s.tempClientId ∧
    (handleCustomFieldsSave cf s).tempClientId = s.tempClientId ∧
    (handleDocumentsSave dm s).tempClientId = s.tempClientId ∧
    (handleDeleteCustomField fld s).tempClientId = s.tempClientId ∧
    (handleDeleteDocument fld s).tempClientId = s.tempClientId ∧
    (handleSubmit m s).1.tempClientId = s.tempClientId ∧
    genTempId n r ≠ genTempId n r' := by
  have happ : (applyRender p e f s).1.tempClientId = s.tempClientId := by
    simp only [applyRender]
    rw [if_pos hdeps]
    by_cases ho : s.prevOpenDep = some p.openFlag
    · rw [if_pos ho]
    · rw [if_neg ho]
      cases f <;> cases hb : p.openFlag <;> simp [applyFetchResult]
  have hsub : (handleSubmit m s).1.tempClientId = s.tempClientId := by
    cases m with
    | edit => rfl
    | create =>
        simp only [handleSubmit, validateMandatoryFields]
        by_cases h : (missingFields s.formData).length > 0
        · rw [if_pos h]; simp
        · rw [if_neg h]; simp
  have hgen : genTempId n r ≠ genTempId n r' := by
    intro h
    apply hr
    have hd := congrArg String.data h
    simp only [genTempId, String.data_append, List.append_assoc] at hd
    exact congrArg String.mk
      (List.append_cancel_left (List.append_cancel_left
        (List.append_cancel_left hd)))
  exact ⟨happ, rfl, rfl, rfl, rfl, rfl, rfl, hsub, hgen⟩

theorem tempid_stability_amended_witness :
    c5S1.prevInitDeps = some (openCreateProps.client, openCreateProps.mode) ∧
    ("aaaaaaaaa" : String) ≠ "ccccccccc" ∧
    ((applyRender openCreateProps (3, "ccccccccc") (Except.ok [])
        c5S1).1.tempClientId = c5S1.tempClientId ∧
     (handleChange "first_name" ⟨"text", false, "Jo"⟩
        c5S1).tempClientId = c5S1.tempClientId ∧
     (handleDynamicFieldChange "industry" (FieldValue.str "law")
        c5S1).tempClientId = c5S1.tempClientId ∧
     (handleCustomFieldsSave [("a", "1")] c5S1).tempClientId =
        c5S1.tempClientId ∧
     (handleDocumentsSave [("d.pdf", "u")] c5S1).tempClientId =
        c5S1.tempClientId ∧
     (handleDeleteCustomField "first_name" c5S1).tempClientId =
        c5S1.tempClientId ∧
     (handleDeleteDocument "first_name" c5S1).tempClientId =
        c5S1.tempClientId ∧
     (handleSubmit Mode.create c5S1).1.tempClientId = c5S1.tempClientId ∧
     genTempId 3 "aaaaaaaaa" ≠ genTempId 3 "ccccccccc") :=
  ⟨rfl, by decide,
   tempid_stability_amended openCreateProps (3, "ccccccccc") (Except.ok [])
     c5S1 "first_name" "industry" ⟨"text", false, "Jo"⟩
     (FieldValue.str "law") Mode.create [("a", "1")] [("d.pdf", "u")]
     3 "aaaaaaaaa" "ccccccccc" rfl (by decide)⟩

/-! ### C6: identifier passed to the documents dialog -/

/-- C6 counterexample: `mode === "edit" && client?.id` is a truthiness test,
so in edit mode with a provided client whose identifier is the (falsy)
number 0 the documents dialog receives the temporary identifier, not the
record's real identifier `"0"`. -/
theorem docs_id_edit_not_real_id_cex :
    getClientIdForDocuments Mode.edit (some zeroIdClient) c6State =
      "temp_9_zzzzzzzzz" ∧
    ("temp_9_zzzzzzzzz" : String) ≠ "0" := ⟨rfl, by decide⟩

/-- C6 amended: the documents dialog receives the record's real identifier
exactly when mode is edit, a client is provided, and its identifier is
present and nonzero; in create mode, and in edit mode with a missing
client, a missing identifier, or identifier 0, it receives the temporary
identifier. -/
theorem docs_id_amended (s : CompState) (c : FormData)
    (cl : Option FormData) (n : Nat) (hid : c.id = some n) (hn : n ≠ 0) :
    getClientIdForDocuments Mode.edit (some c) s = toString n ∧
    getClientIdForDocuments Mode.create cl s = s.tempClientId ∧
    getClientIdForDocuments Mode.edit none s = s.tempClientId ∧
    (∀ c', c'.id = none →
      getClientIdForDocuments Mode.edit (some c') s = s.tempClientId) ∧
    (∀ c', c'.id = some 0 →
      getClientIdForDocuments Mode.edit (some c') s = s.tempClientId) := by
  refine ⟨?_, ?_, rfl, ?_, ?_⟩
  · simp [getClientIdForDocuments, hid, hn]
  · cases cl <;> rfl
  · intro c' h; simp [getClientIdForDocuments, h]
  · intro c' h; simp [getClientIdForDocuments, h]

theorem docs_id_amended_witness :
    fortyTwoClient.id = some 42 ∧ (42 : Nat) ≠ 0 ∧
    (getClientIdForDocuments Mode.edit (some fortyTwoClient) c6State =
       "42" ∧
     getClientIdForDocuments Mode.create (some fortyTwoClient) c6State =
       c6State.tempClientId ∧
     getClientIdForDocuments Mode.edit none c6State =
       c6State.tempClientId ∧
     getClientIdForDocuments Mode.edit (some noIdClient) c6State =
       c6State.tempClientId ∧
     getClientIdForDocuments Mode.edit (some zeroIdClient) c6State =
       c6State.tempClientId) :=
  have h := docs_id_amended c6State fortyTwoClient (some fortyTwoClient)
    42 rfl (by decide)
  ⟨rfl, by decide,
   ⟨h.1, h.2.1, h.2.2.1, h.2.2.2.1 noIdClient rfl,
    h.2.2.2.2 zeroIdClient rfl⟩⟩

/-! ### C7: additive merges from the child dialogs -/

/-- C7: the child-dialog save handlers merge additively. Two successive
custom-fields merges whose key sets are pairwise disjoint from each other
and from the existing sub-map yield the union of all three; a single merge
overwrites exactly the keys the returned map carries and leaves every other
entry unchanged — and likewise for the documents handler. -/
theorem child_dialog_merges_additive (s : CompState)
    (A B : List (String × String))
    (hA : (A.map Prod.fst).Nodup) (hB : (B.map Prod.fst).Nodup) :
    (∀ k, (lookupK (ufOf s) k = none ∨ lookupK A k = none) →
          (lookupK (ufOf s) k = none ∨ lookupK B k = none) →
          (lookupK A k = none ∨ lookupK B k = none) →
          lookupK (ufOf (handleCustomFieldsSave B
            (handleCustomFieldsSave A s))) k =
            firstSome (lookupK (ufOf s) k)
              (firstSome (lookupK A k) (lookupK B k))) ∧
    (∀ k v, lookupK A k = some v →
      lookupK (ufOf (handleCustomFieldsSave A s)) k = some v) ∧
    (∀ k, lookupK A k = none →
      lookupK (ufOf (handleCustomFieldsSave A s)) k = lookupK (ufOf s) k) ∧
    (∀ k v, lookupK A k = some v →
      lookupK (docsOf (handleDocumentsSave A s)) k = some v) ∧
    (∀ k, lookupK A k = none →
      lookupK (docsOf (handleDocumentsSave A s)) k =
        lookupK (docsOf s) k) := by
  have huf : ufOf (handleCustomFieldsSave A s) = spreadMerge (ufOf s) A :=
    rfl
  have huf2 : ufOf (handleCustomFieldsSave B (handleCustomFieldsSave A s)) =
      spreadMerge (spreadMerge (ufOf s) A) B := rfl
  have hdoc : docsOf (handleDocumentsSave A s) =
      spreadMerge (docsOf s) A := rfl
  refine ⟨?_, ?_, ?_, ?_, ?_⟩
  · intro k h1k h2k h3k
    rw [huf2, lookupK_spreadMerge _ _ hB, lookupK_spreadMerge _ _ hA]
    cases hek : lookupK (ufOf s) k <;> cases hak : lookupK A k <;>
      cases hbk : lookupK B k <;> simp_all [firstSome]
  · intro k v h
    rw [huf, lookupK_spreadMerge _ _ hA, h]
  · intro k h
    rw [huf, lookupK_spreadMerge _ _ hA, h]
  · intro k v h
    rw [hdoc, lookupK_spreadMerge _ _ hA, h]
  · intro k h
    rw [hdoc, lookupK_spreadMerge _ _ hA, h]

theorem child_dialog_merges_additive_witness :
    ((["b"] : List String).Nodup ∧ (["c"] : List String).Nodup) ∧
    (lookupK (ufOf (handleCustomFieldsSave [("c", "3")]
        (handleCustomFieldsSave [("b", "2")] c7State))) "b" =
      firstSome (lookupK (ufOf c7State) "b")
        (firstSome (lookupK [("b", "2")] "b")
          (lookupK [("c", "3")] "b")) ∧
     lookupK (ufOf (handleCustomFieldsSave [("b", "2")] c7State)) "b" =
       some "2" ∧
     lookupK (ufOf (handleCustomFieldsSave [("b", "2")] c7State)) "a" =
       lookupK (ufOf c7State) "a" ∧
     lookupK (docsOf (handleDocumentsSave [("b", "2")] c7State)) "b" =
       some "2" ∧
     lookupK (docsOf (handleDocumentsSave [("b", "2")] c7State)) "a" =
       lookupK (docsOf c7State) "a") :=
  have h := child_dialog_merges_additive c7State [("b", "2")] [("c", "3")]
    (by decide) (by decide)
  ⟨⟨by decide, by decide⟩,
   ⟨h.1 "b" (by decide) (by decide) (by decide),
    h.2.1 "b" "2" (by decide),
    h.2.2.1 "a" (by decide),
    h.2.2.2.1 "b" "2" (by decide),
    h.2.2.2.2 "a" (by decide)⟩⟩

/-! ### C8: single-key frame property of field edits -/

/-- C8: a field edit writes the checkbox truth value or the text value under
exactly the one named key and changes nothing else: every other scalar
field, both sub-maps, the record identifier, and all remaining component
state are untouched. Instantiated at `is_active`, this is the active-switch
frame property. -/
theorem field_edit_single_key_frame (s : CompState) (fld k : String)
    (ev : InputEvent) (hk : k ≠ fld) :
    lookupK (handleChange fld ev s).formData.fields fld =
      some (if ev.ttype = "checkbox" then FieldValue.bool ev.checked
            else FieldValue.str ev.value) ∧
    lookupK (handleChange fld ev s).formData.fields k =
      lookupK s.formData.fields k ∧
    (handleChange fld ev s).formData.user_defined_fields =
      s.formData.user_defined_fields ∧
    (handleChange fld ev s).formData.client_documents =
      s.formData.client_documents ∧
    (handleChange fld ev s).formData.id = s.formData.id ∧
    (handleChange fld ev s).tempClientId = s.tempClientId ∧
    (handleChange fld ev s).validationError = s.validationError ∧
    (handleChange fld ev s).showValidationError = s.showValidationError ∧
    (handleChange fld ev s).dynamicColumns = s.dynamicColumns ∧
    (handleChange fld ev s).customFieldsOpen = s.customFieldsOpen ∧
    (handleChange fld ev s).documentsOpen = s.documentsOpen :=
  ⟨lookupK_setK_self _ _ _, lookupK_setK_ne _ _ _ _ hk,
   rfl, rfl, rfl, rfl, rfl, rfl, rfl, rfl, rfl⟩

theorem field_edit_single_key_frame_witness :
    ("first_name" : String) ≠ "is_active" ∧
    (lookupK (handleChange "is_active" ⟨"checkbox", false, "on"⟩
        c2State).formData.fields "is_active" =
      some (if ("checkbox" : String) = "checkbox"
            then FieldValue.bool false else FieldValue.str "on") ∧
     lookupK (handleChange "is_active" ⟨"checkbox", false, "on"⟩
        c2State).formData.fields "first_name" =
       lookupK c2State.formData.fields "first_name" ∧
     (handleChange "is_active" ⟨"checkbox", false, "on"⟩
        c2State).formData.user_defined_fields =
       c2State.formData.user_defined_fields ∧
     (handleChange "is_active" ⟨"checkbox", false, "on"⟩
        c2State).formData.client_documents =
       c2State.formData.client_documents ∧
     (handleChange "is_active" ⟨"checkbox", false, "on"⟩
        c2State).formData.id = c2State.formData.id ∧
     (handleChange "is_active" ⟨"checkbox", false, "on"⟩
        c2State).tempClientId = c2State.tempClientId ∧
     (handleChange "is_active" ⟨"checkbox", false, "on"⟩
        c2State).validationError = c2State.validationError ∧
     (handleChange "is_active" ⟨"checkbox", false, "on"⟩
        c2State).showValidationError = c2State.showValidationError ∧
     (handleChange "is_active" ⟨"checkbox", false, "on"⟩
        c2State).dynamicColumns = c2State.dynamicColumns ∧
     (handleChange "is_active" ⟨"checkbox", false, "on"⟩
        c2State).customFieldsOpen = c2State.customFieldsOpen ∧
     (handleChange "is_active" ⟨"checkbox", false, "on"⟩
        c2State).documentsOpen = c2State.documentsOpen) :=
  ⟨by decide,
   field_edit_single_key_frame c2State "is_active" "first_name"
     ⟨"checkbox", false, "on"⟩ (by decide)⟩

/-! ### C9: dynamic-columns fetch on open -/

/-- C9 counterexample: a failing fetch leaves `dynamicColumns` unchanged,
not empty — after a successful first open, a close, and a re-open whose
fetch fails, the extra-fields list still holds the previously fetched
column, refuting the claim that failure leaves the list empty. -/
theorem fetch_failure_leaves_stale_columns_cex :
    c9S3.dynamicColumns = [industryCol] ∧
    [industryCol] ≠ ([] : List ColumnMetadata) := ⟨rfl, by decide⟩

/-- The initialization half of a render never touches `prevOpenDep` or
`dynamicColumns`, whether or not it fires. -/
theorem renderInit_preserves (p : Props) (e : Nat × String)
    (s : CompState) :
    ((if s.prevInitDeps = some (p.client, p.mode) then s
      else { initFormEffect p.client p.mode e s with
               prevInitDeps := some (p.client, p.mode) }).prevOpenDep =
      s.prevOpenDep) ∧
    ((if s.prevInitDeps = some (p.client, p.mode) then s
      else { initFormEffect p.client p.mode e s with
               prevInitDeps := some (p.client, p.mode) }).dynamicColumns =
      s.dynamicColumns) := by
  by_cases h : s.prevInitDeps = some (p.client, p.mode)
  · rw [if_pos h]; exact ⟨rfl, rfl⟩
  · rw [if_neg h]
    cases hc : p.client <;> cases hm : p.mode <;> exact ⟨rfl, rfl⟩

/-- C9 amended: a render in which `open` transitions to true requests the
column metadata (exactly that render does; a re-render with `open`
unchanged — e.g. per keystroke — requests nothing); on success the returned
columns are stored; on failure the error is only logged and the list is
left unchanged — hence still empty when no earlier fetch succeeded, and the
form keeps rendering with whatever columns it had. -/
theorem dynamic_columns_fetch_amended (p : Props) (e : Nat × String)
    (f : Except String (List ColumnMetadata)) (s : CompState)
    (hopen : s.prevOpenDep = some false) (hp : p.openFlag = true) :
    (applyRender p e f s).2 = true ∧
    (∀ cols, f = Except.ok cols →
      (applyRender p e f s).1.dynamicColumns = cols) ∧
    (∀ msg, f = Except.error msg →
      (applyRender p e f s).1.dynamicColumns = s.dynamicColumns) ∧
    (∀ msg, f = Except.error msg → s.dynamicColumns = [] →
      (applyRender p e f s).1.dynamicColumns = []) ∧
    (∀ (e' : Nat × String) (f' : Except String (List ColumnMetadata))
       (s' : CompState), s'.prevOpenDep = some p.openFlag →
      (applyRender p e' f' s').2 = false ∧
      (applyRender p e' f' s').1.dynamicColumns = s'.dynamicColumns) := by
  obtain ⟨ho1, ho2⟩ := renderInit_preserves p e s
  have hcond : ¬((if s.prevInitDeps = some (p.client, p.mode) then s
      else { initFormEffect p.client p.mode e s with
               prevInitDeps := some (p.client, p.mode) }).prevOpenDep =
        some p.openFlag) := by
    rw [ho1, hopen, hp]; simp
  have hmain : ∀ (g : Except String (List ColumnMetadata)),
      applyRender p e g s =
        ({ applyFetchResult g
            (if s.prevInitDeps = some (p.client, p.mode) then s
             else { initFormEffect p.client p.mode e s with
                      prevInitDeps := some (p.client, p.mode) }) with
            prevOpenDep := some p.openFlag }, p.openFlag) := by
    intro g
    simp only [applyRender]
    rw [if_neg hcond, if_pos (by rw [hp])]
  refine ⟨?_, ?_, ?_, ?_, ?_⟩
  · rw [hmain f, hp]
  · intro cols hf
    subst hf
    rw [hmain (Except.ok cols)]
    simp [applyFetchResult]
  · intro msg hf
    subst hf
    rw [hmain (Except.error msg)]
    simpa [applyFetchResult] using ho2
  · intro msg hf hemp
    subst hf
    rw [hmain (Except.error msg)]
    simp [applyFetchResult, ho2, hemp]
  · intro e' f' s' hs'
    obtain ⟨ho1', ho2'⟩ := renderInit_preserves p e' s'
    have hcond' : ((if s'.prevInitDeps = some (p.client, p.mode) then s'
        else { initFormEffect p.client p.mode e' s' with
                 prevInitDeps := some (p.client, p.mode) }).prevOpenDep =
          some p.openFlag) := by rw [ho1', hs']
    constructor
    · simp only [applyRender]
      rw [if_pos hcond']
    · simp only [applyRender]
      rw [if_pos hcond']
      exact ho2'

theorem dynamic_columns_fetch_amended_witness :
    c9S2.prevOpenDep = some false ∧ openCreateProps.openFlag = true ∧
    ((applyRender openCreateProps (6, "fffffffff")
        (Except.error "network down") c9S2).2 = true ∧
     (applyRender openCreateProps (6, "fffffffff")
        (Except.error "network down") c9S2).1.dynamicColumns =
       c9S2.dynamicColumns ∧
     (applyRender openCreateProps (7, "ggggggggg")
        (Except.ok []) c9S3).2 = false ∧
     (applyRender openCreateProps (7, "ggggggggg")
        (Except.ok []) c9S3).1.dynamicColumns = c9S3.dynamicColumns) :=
  have h := dynamic_columns_fetch_amended openCreateProps
    (6, "fffffffff") (Except.error "network down") c9S2 rfl rfl
  have hk := h.2.2.2.2 (7, "ggggggggg") (Except.ok []) c9S3 rfl
  ⟨rfl, rfl, h.1, h.2.2.1 "network down" rfl, hk.1, hk.2⟩
